import Mathlib

/-!
Verification of the OpenCourier demo registry server (`server.js`).

The development shallowly embeds the JavaScript handlers of `server.js`:
JSON values become an inductive `JsValue`, JavaScript property access
(which throws a `TypeError` on `undefined`/`null` receivers) becomes an
`Except`-valued lookup, the Express handlers become pure functions from a
request plus an environment (the outcome of the outbound `fetch`, the
current clock, the database state) to a response and a new store state.
The PostgreSQL/PostGIS statements that appear verbatim in `server.js` are
embedded by their SQL semantics over a list-of-rows store; platform
builtins (`fetch`, `JSON.parse`, URL parsing, PostGIS geometry parsing)
are passed in as explicit parameters or modelled where noted.
-/

namespace Registry

/-- Model of a JavaScript/JSON value as manipulated by `server.js`.
`undefined` is JavaScript `undefined` (absent property), distinct from JSON
`null`; numbers are modelled as rationals. -/
inductive JsValue where
  | undefined
  | null
  | bool (b : Bool)
  | num (q : ℚ)
  | str (s : String)
  | arr (elems : List JsValue)
  | obj (fields : List (String × JsValue))

mutual

/-- Structural (Boolean) equality on `JsValue`, used to model SQL equality
comparisons on stored values (`WHERE link = $1`). -/
def beqVal : JsValue → JsValue → Bool
  | .undefined, .undefined => true
  | .null, .null => true
  | .bool a, .bool b => a == b
  | .num a, .num b => a == b
  | .str a, .str b => a == b
  | .arr xs, .arr ys => beqValList xs ys
  | .obj xs, .obj ys => beqValFields xs ys
  | _, _ => false

/-- Pointwise `beqVal` on lists of values. -/
def beqValList : List JsValue → List JsValue → Bool
  | [], [] => true
  | x :: xs, y :: ys => beqVal x y && beqValList xs ys
  | _, _ => false

/-- Pointwise `beqVal` on association lists of object fields. -/
def beqValFields : List (String × JsValue) → List (String × JsValue) → Bool
  | [], [] => true
  | (k, v) :: xs, (l, w) :: ys => k == l && beqVal v w && beqValFields xs ys
  | _, _ => false

end

mutual

theorem beqVal_refl : ∀ a, beqVal a a = true
  | .undefined => rfl
  | .null => rfl
  | .bool _ => by simp [beqVal]
  | .num _ => by simp [beqVal]
  | .str _ => by simp [beqVal]
  | .arr xs => by simp [beqVal, beqValList_refl xs]
  | .obj xs => by simp [beqVal, beqValFields_refl xs]

theorem beqValList_refl : ∀ xs, beqValList xs xs = true
  | [] => rfl
  | x :: xs => by simp [beqValList, beqVal_refl x, beqValList_refl xs]

theorem beqValFields_refl : ∀ xs, beqValFields xs xs = true
  | [] => rfl
  | (k, v) :: xs => by simp [beqValFields, beqVal_refl v, beqValFields_refl xs]

end

namespace JsValue

/-- JavaScript nullish test: `undefined` and `null` are nullish (the
left-hand condition of the `??` operator in `server.js`). -/
def isNullish : JsValue → Bool
  | .undefined => true
  | .null => true
  | _ => false

/-- JavaScript truthiness, as used by `req.body || {}` and
`data.region && typeof data.region === "object"` in `server.js`. -/
def isTruthy : JsValue → Bool
  | .undefined => false
  | .null => false
  | .bool b => b
  | .num q => decide (q ≠ 0)
  | .str s => !s.isEmpty
  | .arr _ => true
  | .obj _ => true

/-- `typeof v === "object"` for a non-null value: true for objects and
arrays (JavaScript arrays have typeof "object"). -/
def isObjectLike : JsValue → Bool
  | .obj _ => true
  | .arr _ => true
  | _ => false

end JsValue

/-- JavaScript property access `v.k`: throws a `TypeError` when the
receiver is `undefined` or `null`; yields the field (or `undefined`) on an
object; yields `undefined` on any other primitive. The thrown exception is
modelled as `Except.error ()`. -/
def jsMember (v : JsValue) (k : String) : Except Unit JsValue :=
  match v with
  | .undefined => .error ()
  | .null => .error ()
  | .obj fields =>
    .ok (match fields.lookup k with
      | some w => w
      | none => .undefined)
  | _ => .ok .undefined

/-- JavaScript nullish coalescing `a ?? b`. -/
def jsCoalesce (a b : JsValue) : JsValue :=
  if a.isNullish then b else a

/-- JavaScript logical OR `a || b`. -/
def jsOr (a b : JsValue) : JsValue :=
  if a.isTruthy then a else b

/-- The canonical detail record produced by `getRegistryData` in
`server.js`: each field holds the resolved JavaScript value. -/
structure RegistryData where
  name : JsValue
  link : JsValue
  websocketLink : JsValue
  region : JsValue
  imageUrl : JsValue
  userCount : JsValue
  rulesUrl : JsValue
  descriptionUrl : JsValue
  termsOfServiceUrl : JsValue
  privacyPolicyUrl : JsValue
  updatedAt : JsValue

/-- Embedding of `getRegistryData(metadata)` from `server.js` (lines
151-169). The source reads `metadata.details` and then accesses fields on
`details` directly (`details.name ?? metadata.name`, ...), so a nullish
`metadata` or a nullish `details` makes the property access throw; the
throw is the `Except.error` case. `region`, `imageUrl` and `userCount`
get an extra `?? null`; `updatedAt` is read from the top level only. -/
def getRegistryData (metadata : JsValue) : Except Unit RegistryData := do
  let details ← jsMember metadata "details"
  let dName ← jsMember details "name"
  let dLink ← jsMember details "link"
  let dWs ← jsMember details "websocketLink"
  let dRegion ← jsMember details "region"
  let dImage ← jsMember details "imageUrl"
  let dUsers ← jsMember details "userCount"
  let dRules ← jsMember details "rulesUrl"
  let dDesc ← jsMember details "descriptionUrl"
  let dTos ← jsMember details "termsOfServiceUrl"
  let dPriv ← jsMember details "privacyPolicyUrl"
  let mName ← jsMember metadata "name"
  let mLink ← jsMember metadata "link"
  let mWs ← jsMember metadata "websocketLink"
  let mRegion ← jsMember metadata "region"
  let mImage ← jsMember metadata "imageUrl"
  let mUsers ← jsMember metadata "userCount"
  let mRules ← jsMember metadata "rulesUrl"
  let mDesc ← jsMember metadata "descriptionUrl"
  let mTos ← jsMember metadata "termsOfServiceUrl"
  let mPriv ← jsMember metadata "privacyPolicyUrl"
  let mUpd ← jsMember metadata "updatedAt"
  return { name := jsCoalesce dName mName
           link := jsCoalesce dLink mLink
           websocketLink := jsCoalesce dWs mWs
           region := jsCoalesce (jsCoalesce dRegion mRegion) .null
           imageUrl := jsCoalesce (jsCoalesce dImage mImage) .null
           userCount := jsCoalesce (jsCoalesce dUsers mUsers) .null
           rulesUrl := jsCoalesce dRules mRules
           descriptionUrl := jsCoalesce dDesc mDesc
           termsOfServiceUrl := jsCoalesce dTos mTos
           privacyPolicyUrl := jsCoalesce dPriv mPriv
           updatedAt := jsCoalesce mUpd .null }

/-- Outcome of the outbound `fetch` of an instance's `/metadata` endpoint:
the request times out (the `AbortController` fires), fails for another
network reason (`fetch` rejects with a non-abort error), or completes with
an HTTP status and a body string. -/
inductive FetchOutcome where
  | timeout
  | netError
  | response (status : Nat) (body : String)
deriving DecidableEq, Repr

/-- Result type of `fetchAndValidateInstanceMetadata`: the source returns
either `{ error }` or `{ data }`. -/
inductive FetchResult where
  | error (msg : String)
  | data (json : JsValue)

/-- True when `res.ok` holds in the fetch API: status in 200..299. -/
def statusOk (status : Nat) : Bool :=
  decide (200 ≤ status ∧ status < 300)

/-- The `!body || !body.trim()` test of `server.js` line 41: the body is
empty or consists of whitespace only (its trim is the empty string). -/
def isBlank (s : String) : Bool :=
  List.all s.toList Char.isWhitespace

/-- Embedding of `fetchAndValidateInstanceMetadata(instanceLink)` from
`server.js` (lines 20-56). `jsonParse` stands for the `JSON.parse`
builtin (`none` = parse exception); `linkValid` is the outcome of the
`new URL("/metadata", instanceLink)` builtin (`false` = constructor
throws); `outcome` is the environment's fetch outcome. -/
def fetchAndValidateInstanceMetadata (jsonParse : String → Option JsValue)
    (linkValid : Bool) (outcome : FetchOutcome) : FetchResult :=
  if !linkValid then .error "Invalid instance link"
  else
    match outcome with
    | .timeout => .error "Failed to verify instance metadata: timeout"
    | .netError => .error "Failed to verify instance metadata: fetch failed"
    | .response status body =>
      if !statusOk status then
        .error ("Instance metadata unreachable (status " ++ toString status ++ ")")
      else if isBlank body then
        .error "Instance metadata endpoint returned empty response"
      else
        match jsonParse body with
        | none => .error "Instance metadata endpoint did not return valid JSON"
        | some j => .data j

/-- A stored row of the `instances` table. Timestamps are clock ticks
(`NOW()` is the `now` parameter of each operation); `region` is the
geometry column, modelled as the GeoJSON value it was parsed from
(`none` = SQL NULL); `updatedAt` holds the client-supplied JavaScript
value verbatim. -/
structure Row where
  id : Nat
  name : JsValue
  link : JsValue
  websocketLink : JsValue
  region : Option JsValue
  imageUrl : JsValue
  userCount : JsValue
  status : String
  lastFetchedAt : Nat
  createdAt : Nat
  updatedAt : JsValue

/-- The `instances` table as a list of rows. -/
abbrev Store := List Row

/-- Database errors surfaced to the handlers: `uniqueViolation` is
SQLSTATE 23505 (checked by the handler via `error.code === "23505"`),
`geometryError` is a `ST_GeomFromGeoJSON` failure on invalid GeoJSON. -/
inductive DbError where
  | uniqueViolation
  | geometryError

/-- Modelled from the spec: the database schema (the one-shot provisioning
script is not under `src/`) declares a unique constraint on the `link`
column, so an INSERT whose `link` equals a stored row's `link` fails
atomically with a duplicate-key error and mutates nothing; otherwise the
row is appended. -/
def storeInsert (s : Store) (r : Row) : Except DbError Store :=
  if (List.any s fun x => beqVal x.link r.link) then .error .uniqueViolation
  else .ok (s ++ [r])

/-- Number of rows of the store whose `link` equals `l` (SQL equality). -/
def countLink (s : Store) (l : JsValue) : Nat :=
  (List.filter (fun x => beqVal x.link l) s).length

/-- An HTTP response: status code and JSON body. -/
structure Resp where
  status : Nat
  body : JsValue

/-- A `res.status(code).json({ error: msg })` response. -/
def mkErr (code : Nat) (msg : String) : Resp :=
  { status := code, body := .obj [("error", .str msg)] }

/-- The `requiredMetaKeys` array of the registration handler
(`server.js` lines 65-72), in source order. -/
def requiredMetaKeys : List String :=
  ["name", "link", "websocketLink", "region", "imageUrl", "userCount"]

/-- Dynamic field projection `data[k]` on the canonical record, for the
keys the handler inspects. -/
def regField (d : RegistryData) : String → JsValue
  | "name" => d.name
  | "link" => d.link
  | "websocketLink" => d.websocketLink
  | "region" => d.region
  | "imageUrl" => d.imageUrl
  | "userCount" => d.userCount
  | _ => .undefined

/-- The list of required keys whose resolved value is `undefined` or
`null` (`server.js` lines 73-75), in the order of `requiredMetaKeys`. -/
def missingOf (d : RegistryData) : List String :=
  List.filter (fun k => (regField d k).isNullish) requiredMetaKeys

/-- The row built by the INSERT of the registration handler (`server.js`
lines 95-120): status is the literal `'verified'`, `last_fetched_at` and
`created_at` are `NOW()`, `image_url` is `data.imageUrl || null`,
`user_count` is `data.userCount || 0`, `updated_at` is `data.updatedAt`,
and the geometry column holds the region GeoJSON (non-null here because
the missing-field check already required `region` non-nullish). -/
def mkNewRow (d : RegistryData) (now newId : Nat) : Row :=
  { id := newId
    name := d.name
    link := d.link
    websocketLink := d.websocketLink
    region := some d.region
    imageUrl := jsOr d.imageUrl .null
    userCount := jsOr d.userCount (.num 0)
    status := "verified"
    lastFetchedAt := now
    createdAt := now
    updatedAt := d.updatedAt }

/-- JSON shape of the `instance` object of the 201 response (`server.js`
lines 126-138). -/
def instanceJson (r : Row) : JsValue :=
  .obj [("id", .num r.id),
        ("name", r.name),
        ("link", r.link),
        ("websocketLink", r.websocketLink),
        ("region", match r.region with | some v => v | none => .null),
        ("imageUrl", r.imageUrl),
        ("userCount", r.userCount),
        ("status", .str r.status),
        ("lastFetchedAt", .num r.lastFetchedAt),
        ("createdAt", .num r.createdAt),
        ("updatedAt", r.updatedAt)]

/-- Embedding of the `POST /registrations` handler (`server.js` lines
59-149). Environment parameters: `jsonParse` and `linkValid` feed the
metadata probe, `geoOk` models whether `ST_GeomFromGeoJSON` accepts the
region value, `outcome` is the probe's fetch outcome, `now` the SQL
`NOW()`, `newId` the sequence value for the new row. A thrown JavaScript
exception escaping the handler (the `getRegistryData` TypeError) is
`Except.error ()`: the async handler rejects and no response is sent. -/
def postRegistrations (jsonParse : String → Option JsValue)
    (geoOk : JsValue → Bool) (linkValid : Bool) (outcome : FetchOutcome)
    (now newId : Nat) (body : JsValue) (s : Store) :
    Except Unit (Resp × Store) := do
  let metadata := if body.isTruthy then body else .obj []
  let data ← getRegistryData metadata
  let missing := missingOf data
  if missing.isEmpty = false then
    return (mkErr 400 ("Missing fields: " ++ String.intercalate ", " missing), s)
  match fetchAndValidateInstanceMetadata jsonParse linkValid outcome with
  | .error msg => return (mkErr 400 msg, s)
  | .data _ =>
    if geoOk data.region = false then
      return (mkErr 500 "Internal server error", s)
    match storeInsert s (mkNewRow data now newId) with
    | .error .uniqueViolation =>
      return (mkErr 409 "Instance with this link already exists", s)
    | .error _ =>
      return (mkErr 500 "Internal server error", s)
    | .ok s2 =>
      return ({ status := 201,
                body := .obj
                  [("message", .str "Instance registered and verified successfully."),
                   ("instance", instanceJson (mkNewRow data now newId))] }, s2)

/-- SQL `COALESCE(p, col)` where the bind parameter `p` is a JavaScript
value (nullish JavaScript values are sent as SQL NULL). -/
def sqlCoalesce (p old : JsValue) : JsValue :=
  if p.isNullish then old else p

/-- The row produced by the UPDATE of the refresh worker (`server.js`
lines 190-210) on a row `row`, given the normalized detail `d`. Bind
parameters are the JavaScript-side `??` fallbacks of lines 202-207; the
SQL statement coalesces them again with the stored columns, sets
`region = ST_GeomFromGeoJSON($3)` (no COALESCE: a NULL parameter yields a
NULL region) and `last_fetched_at = NOW()`. An invalid GeoJSON value
makes `ST_GeomFromGeoJSON` raise, failing the statement. -/
def mergeRow (geoOk : JsValue → Bool) (row : Row) (d : RegistryData)
    (now : Nat) : Except DbError Row :=
  let regionValue : JsValue :=
    if d.region.isTruthy && d.region.isObjectLike then d.region
    else jsCoalesce d.region .null
  let rowRegionJs : JsValue :=
    match row.region with
    | some v => v
    | none => .null
  let p1 := jsCoalesce d.name row.name
  let p2 := jsCoalesce d.websocketLink row.websocketLink
  let p3 := jsCoalesce regionValue rowRegionJs
  let p4 := jsCoalesce d.imageUrl row.imageUrl
  let p5 := jsCoalesce d.userCount row.userCount
  let p6 := d.updatedAt
  if p3.isNullish then
    .ok { row with
          name := sqlCoalesce p1 row.name
          websocketLink := sqlCoalesce p2 row.websocketLink
          region := none
          imageUrl := sqlCoalesce p4 row.imageUrl
          userCount := sqlCoalesce p5 row.userCount
          lastFetchedAt := now
          updatedAt := sqlCoalesce p6 row.updatedAt }
  else if geoOk p3 then
    .ok { row with
          name := sqlCoalesce p1 row.name
          websocketLink := sqlCoalesce p2 row.websocketLink
          region := some p3
          imageUrl := sqlCoalesce p4 row.imageUrl
          userCount := sqlCoalesce p5 row.userCount
          lastFetchedAt := now
          updatedAt := sqlCoalesce p6 row.updatedAt }
  else .error .geometryError

/-- Result value of the refresh worker: `{ ok: false, reason, message }`
or `{ ok: true }`. -/
inductive RefreshOutcome where
  | failed (reason msg : String)
  | succeeded

/-- Embedding of `refreshInstanceMetadata(instanceRow)` from `server.js`
(lines 171-219). On probe failure it returns early with the row
untouched. On probe success it evaluates `getRegistryData(response.result)`
outside any try/catch: `response.result` on a nullish document and the
normalizer on a nullish argument throw, so those probes make the worker's
promise reject (`Except.error ()`). The UPDATE runs inside a try/catch:
its failure yields `{ ok: false, reason: "fetch-failed" }` with the row
unchanged. -/
def refreshInstanceMetadata (jsonParse : String → Option JsValue)
    (geoOk : JsValue → Bool) (linkValid : Bool) (outcome : FetchOutcome)
    (now : Nat) (row : Row) : Except Unit (RefreshOutcome × Row) := do
  match fetchAndValidateInstanceMetadata jsonParse linkValid outcome with
  | .error msg => return (.failed "fetch-failed" msg, row)
  | .data response =>
    let resultVal ← jsMember response "result"
    let d ← getRegistryData resultVal
    match mergeRow geoOk row d now with
    | .error _ => return (.failed "fetch-failed" "update failed", row)
    | .ok row2 => return (.succeeded, row2)

/-- Store-level effect of one detached refresh run triggered for link
`lnk`: the trigger handler's SELECT finds the first matching row, the
worker runs, and only a successful merge commits the UPDATE (whose
`WHERE link = $7` uses the selected row's own link). -/
def refreshStoreOp (jsonParse : String → Option JsValue)
    (geoOk : JsValue → Bool) (linkValid : Bool) (outcome : FetchOutcome)
    (now : Nat) (lnk : JsValue) (s : Store) : Store :=
  match List.find? (fun r => beqVal r.link lnk) s with
  | none => s
  | some row =>
    match refreshInstanceMetadata jsonParse geoOk linkValid outcome now row with
    | .ok (.succeeded, row2) =>
      List.map (fun r => if beqVal r.link row.link then row2 else r) s
    | _ => s

/-- Store-level effect of `DELETE /registrations` (`server.js` lines
402-405): remove every row whose link equals the query's link. -/
def deleteByLink (lnk : JsValue) (s : Store) : Store :=
  List.filter (fun r => !(beqVal r.link lnk)) s

/-- Embedding of the `POST /registrations/refresh` handler (`server.js`
lines 343-389) after its SELECT: `found` is the looked-up row. The
response is computed immediately; the worker is fired detached (`void
refreshInstanceMetadata(instance)`), its resulting promise returned as
the second component, never awaited for the response. -/
def postRefreshTrigger (jsonParse : String → Option JsValue)
    (geoOk : JsValue → Bool) (linkValid : Bool) (outcome : FetchOutcome)
    (now : Nat) (found : Option Row) :
    Resp × Option (Except Unit (RefreshOutcome × Row)) :=
  match found with
  | none => (mkErr 404 "Instance not found", none)
  | some row =>
    ({ status := 202, body := .obj [("message", .str "Metadata refresh triggered")] },
     some (refreshInstanceMetadata jsonParse geoOk linkValid outcome now row))

/-- Numeric value of a list of decimal digit characters. -/
def digitsToNat (cs : List Char) : Nat :=
  List.foldl (fun a c => a * 10 + (c.toNat - 48)) 0 cs

/-- Character-level part of the `parseFloat` model: sign, integer digits,
fraction digits and fraction length of the parsed decimal prefix; `none`
when no digit is consumed (NaN). -/
def parseFloatParts (s : String) : Option (Bool × Nat × Nat × Nat) :=
  let cs := List.dropWhile Char.isWhitespace s.toList
  let signedTail : Bool × List Char :=
    match cs with
    | '-' :: r => (true, r)
    | '+' :: r => (false, r)
    | _ => (false, cs)
  let neg := signedTail.1
  let cs1 := signedTail.2
  let intDigits := List.takeWhile Char.isDigit cs1
  let rest1 := List.dropWhile Char.isDigit cs1
  let fracDigits :=
    match rest1 with
    | '.' :: r => List.takeWhile Char.isDigit r
    | _ => []
  if intDigits.isEmpty && fracDigits.isEmpty then none
  else some (neg, digitsToNat intDigits, digitsToNat fracDigits, fracDigits.length)

/-- Model of the JavaScript `parseFloat` builtin on the query strings the
handler receives: leading whitespace is skipped, an optional sign is
consumed, then a decimal literal prefix `digits[.digits]` is read; if no
digit is consumed the result is NaN (`none`). Numbers are exact
rationals. -/
def jsParseFloat (s : String) : Option ℚ :=
  match parseFloatParts s with
  | none => none
  | some (neg, ip, fp, fl) =>
    let v : ℚ := (ip : ℚ) + (fp : ℚ) / ((10 : ℚ) ^ fl)
    some (if neg then -v else v)

/-- The SQL `ORDER BY distance_meters ASC NULLS LAST` comparison on the
computed distance column (`none` = SQL NULL). -/
def distLeB : Option ℚ → Option ℚ → Bool
  | _, none => true
  | none, some _ => false
  | some a, some b => decide (a ≤ b)

/-- Propositional form of `distLeB`, lifted to annotated rows. -/
def rowLe (a b : Row × Option ℚ) : Prop :=
  distLeB a.2 b.2 = true

instance : DecidableRel rowLe := fun a b => by
  unfold rowLe
  infer_instance

instance : IsTotal (Row × Option ℚ) rowLe := by
  constructor
  intro a b
  cases ha : a.2 <;> cases hb : b.2 <;>
    simp [rowLe, distLeB, ha, hb, le_total]

instance : IsTrans (Row × Option ℚ) rowLe := by
  constructor
  intro a b c hab hbc
  cases ha : a.2 <;> cases hb : b.2 <;> cases hc : c.2 <;>
    simp_all [rowLe, distLeB]
  exact le_trans hab hbc

/-- The rows selected by the discovery query (`server.js` lines 246-267):
`WHERE status = 'verified'`. -/
def verifiedRows (s : Store) : Store :=
  List.filter (fun r => r.status == "verified") s

/-- The computed `distance_meters` column: `ST_Distance` of the stored
geography and the reference point — NULL when the region is NULL. `dist`
stands for the PostGIS geodesic distance (meters) between a point and a
geometry. -/
def annotate (dist : ℚ × ℚ → JsValue → ℚ) (point : ℚ × ℚ) (s : Store) :
    List (Row × Option ℚ) :=
  List.map (fun r => (r, Option.map (dist point) r.region)) s

/-- Result set of the discovery query: verified rows with their distance
column, ordered by `distance_meters ASC NULLS LAST`. -/
def instancesQuery (dist : ℚ × ℚ → JsValue → ℚ) (point : ℚ × ℚ)
    (s : Store) : List (Row × Option ℚ) :=
  List.insertionSort rowLe (annotate dist point (verifiedRows s))

/-- JSON shape of one element of the `instances` response array
(`server.js` lines 270-288). -/
def instanceEntryJson (x : Row × Option ℚ) : JsValue :=
  .obj [("registry", .obj
          [("id", .num x.1.id),
           ("status", .str x.1.status),
           ("lastFetchedAt", .num x.1.lastFetchedAt),
           ("distanceMeters", match x.2 with | some q => .num q | none => .null)]),
        ("details", .obj
          [("name", x.1.name),
           ("link", x.1.link),
           ("websocketLink", x.1.websocketLink),
           ("imageUrl", x.1.imageUrl),
           ("region", match x.1.region with | some v => v | none => .null),
           ("userCount", x.1.userCount),
           ("createdAt", .num x.1.createdAt)]),
        ("config", .obj []),
        ("updatedAt", x.1.updatedAt)]

/-- The 200 response of `GET /instances` for a reference point `(lat,
lng)`. -/
def mkInstancesResp (dist : ℚ × ℚ → JsValue → ℚ) (point : ℚ × ℚ)
    (s : Store) : Resp :=
  let q := instancesQuery dist point s
  { status := 200,
    body := .obj [("instances", .arr (List.map instanceEntryJson q)),
                  ("count", .num q.length)] }

/-- The default reference point of the discovery handler (`server.js`
lines 226-227), as (latitude, longitude). -/
def defaultPoint : ℚ × ℚ := (40.344, -74.6514)

/-- Embedding of the `GET /instances` handler (`server.js` lines
222-298): when both `lat` and `lng` query parameters are present they are
parsed with `parseFloat` and a NaN in either yields 400; in every other
case (including exactly one parameter present) the default point is
used. -/
def getInstances (dist : ℚ × ℚ → JsValue → ℚ) (qlat qlng : Option String)
    (s : Store) : Resp :=
  match qlat, qlng with
  | some latS, some lngS =>
    match jsParseFloat latS, jsParseFloat lngS with
    | some la, some ln => mkInstancesResp dist (la, ln) s
    | _, _ => mkErr 400 "Invalid latitude or longitude"
  | _, _ => mkInstancesResp dist defaultPoint s

/-- The store states reachable through the server's write operations:
the empty table, a successful registration insert, a triggered refresh
run, and a delete. -/
inductive Reachable : Store → Prop where
  | empty : Reachable []
  | register {jsonParse geoOk linkValid outcome now newId body s resp s2} :
      Reachable s →
      postRegistrations jsonParse geoOk linkValid outcome now newId body s =
        .ok (resp, s2) →
      Reachable s2
  | refresh {jsonParse geoOk linkValid outcome now lnk s} :
      Reachable s →
      Reachable (refreshStoreOp jsonParse geoOk linkValid outcome now lnk s)
  | delete {lnk s} :
      Reachable s →
      Reachable (deleteByLink lnk s)

/-! Concrete sample values used to instantiate the theorems below. -/

/-- A registration payload carrying the six required fields at the top
level, with no "details" container — the request shape documented in the
repository's README. -/
def topLevelPayload : JsValue :=
  .obj [("name", .str "Downtown Delivery"),
        ("link", .str "https://downtown-delivery.example"),
        ("websocketLink", .str "wss://downtown-delivery.example/ws"),
        ("region", .obj [("type", .str "Point"),
                         ("coordinates", .arr [.num (-74), .num 40])]),
        ("imageUrl", .str "https://downtown-delivery.example/logo.png"),
        ("userCount", .num 150)]

/-- A registration payload carrying the six required fields under the
"details" container. -/
def detailsPayload : JsValue :=
  .obj [("details", .obj
          [("name", .str "Downtown Delivery"),
           ("link", .str "https://downtown-delivery.example"),
           ("websocketLink", .str "wss://downtown-delivery.example/ws"),
           ("region", .obj [("type", .str "Point"),
                            ("coordinates", .arr [.num (-74), .num 40])]),
           ("imageUrl", .str "https://downtown-delivery.example/logo.png"),
           ("userCount", .num 150)])]

/-- The canonical record that `getRegistryData` produces from
`detailsPayload`. -/
def detailsData : RegistryData :=
  { name := .str "Downtown Delivery"
    link := .str "https://downtown-delivery.example"
    websocketLink := .str "wss://downtown-delivery.example/ws"
    region := .obj [("type", .str "Point"),
                    ("coordinates", .arr [.num (-74), .num 40])]
    imageUrl := .str "https://downtown-delivery.example/logo.png"
    userCount := .num 150
    rulesUrl := .undefined
    descriptionUrl := .undefined
    termsOfServiceUrl := .undefined
    privacyPolicyUrl := .undefined
    updatedAt := .null }

/-- The row that registering `detailsPayload` at clock tick 7 with id 1
inserts. -/
def sampleRow : Row := mkNewRow detailsData 7 1

/-- A metadata document wrapped under a "result" envelope, as some
instance implementations serve it. -/
def wrappedDoc : JsValue :=
  .obj [("result", .obj
          [("details", .obj [("name", .str "Uptown"), ("userCount", .num 9)])])]

/-- An unwrapped metadata document of the same shape that registration
accepts (fields under "details", no "result" envelope). -/
def unwrappedDoc : JsValue :=
  .obj [("details", .obj [("name", .str "Uptown"), ("userCount", .num 9)])]

/-- The canonical record that `getRegistryData` produces from
`unwrappedDoc` directly. -/
def unwrappedDocData : RegistryData :=
  { name := .str "Uptown"
    link := .undefined
    websocketLink := .undefined
    region := .null
    imageUrl := .null
    userCount := .num 9
    rulesUrl := .undefined
    descriptionUrl := .undefined
    termsOfServiceUrl := .undefined
    privacyPolicyUrl := .undefined
    updatedAt := .null }

/-- An unwrapped metadata document reporting only a new user count. -/
def userCountDoc : JsValue :=
  .obj [("details", .obj [("userCount", .num 42)])]

/-- The row the refresh merge produces from `sampleRow` and the detail
record of `wrappedDoc` at clock tick 9: the reported name and user count
are overwritten, everything else is retained, `lastFetchedAt` advances. -/
def sampleMergedRow : Row :=
  { sampleRow with name := .str "Uptown", userCount := .num 9, lastFetchedAt := 9 }

/-- The 201 response of registering `detailsPayload` at clock tick 7. -/
def sampleResp201 : Resp :=
  { status := 201,
    body := .obj
      [("message", .str "Instance registered and verified successfully."),
       ("instance", instanceJson sampleRow)] }

/-! Theorems. -/

@[simp]
theorem ok_bind {α β : Type} (a : α) (f : α → Except Unit β) :
    (Except.ok a >>= f : Except Unit β) = f a := rfl

@[simp]
theorem error_bind {α β : Type} (e : Unit) (f : α → Except Unit β) :
    ((Except.error e : Except Unit α) >>= f : Except Unit β) = .error e := rfl

@[simp]
theorem pure_eq_ok {α : Type} (a : α) : (pure a : Except Unit α) = .ok a := rfl

theorem regionValue_eq (d : RegistryData) :
    (if d.region.isTruthy && d.region.isObjectLike then d.region
     else jsCoalesce d.region JsValue.null)
      = if d.region.isNullish then JsValue.null else d.region := by
  cases hr : d.region <;>
    simp [JsValue.isTruthy, JsValue.isObjectLike, JsValue.isNullish, jsCoalesce]

/-- C2: the Payload Normalizer crashes on a payload with no "details"
container: `getRegistryData` evaluates `details.name` with `details`
undefined, modelled as `Except.error`, and the registration handler on
the README's documented top-level payload produces no response at all
(the handler's promise rejects). By contrast, when a "details" container
is present, a field absent inside it does resolve from the top level. -/
theorem c2_normalizer_crashes_without_details :
    getRegistryData topLevelPayload = .error ()
    ∧ postRegistrations (fun _ => none) (fun _ => true) true .timeout 0 1
        topLevelPayload [] = .error ()
    ∧ (getRegistryData (.obj [("details", .obj []), ("name", .str "A")])).map
        (fun d => d.name) = .ok (.str "A") :=
  ⟨rfl, rfl, rfl⟩

/-- C1 counterexample: a successful probe whose metadata document is not
wrapped under "result" — though the document itself is normalizable — is
not normalized directly: the worker evaluates
`getRegistryData(response.result)` with `response.result` undefined and
throws. -/
theorem c1_unwrapped_doc_counterexample :
    getRegistryData unwrappedDoc = .ok unwrappedDocData
    ∧ fetchAndValidateInstanceMetadata (fun _ => some unwrappedDoc) true
        (.response 200 "j") = .data unwrappedDoc
    ∧ refreshInstanceMetadata (fun _ => some unwrappedDoc) (fun _ => true) true
        (.response 200 "j") 9 sampleRow = .error () :=
  ⟨rfl, rfl, rfl⟩

/-- C1 (amended): the Refresh Worker unconditionally reads the fetched
document's "result" property and normalizes its value: a document wrapped
under "result" has the envelope unwrapped and its contents normalized and
merged; a document without a "result" key is not normalized directly —
the normalizer receives undefined and the worker throws. -/
theorem c1_worker_always_unwraps_result (jsonParse : String → Option JsValue)
    (geoOk : JsValue → Bool) (now st : Nat) (body : String) (row : Row)
    (fields : List (String × JsValue))
    (hp : jsonParse body = some (.obj fields))
    (hst : statusOk st = true) (hb : isBlank body = false) :
    (∀ v, List.lookup "result" fields = some v →
      refreshInstanceMetadata jsonParse geoOk true (.response st body) now row =
        ((getRegistryData v).bind fun d =>
          match mergeRow geoOk row d now with
          | .error _ => .ok (.failed "fetch-failed" "update failed", row)
          | .ok row2 => .ok (.succeeded, row2)))
    ∧ (List.lookup "result" fields = none →
      refreshInstanceMetadata jsonParse geoOk true (.response st body) now row =
        .error ()) := by
  constructor
  · intro v hv
    simp [refreshInstanceMetadata, fetchAndValidateInstanceMetadata, hp, hst, hb,
      jsMember, hv]
    rfl
  · intro hv
    simp [refreshInstanceMetadata, fetchAndValidateInstanceMetadata, hp, hst, hb,
      jsMember, hv, getRegistryData]

theorem c1_worker_always_unwraps_result_witness :
    refreshInstanceMetadata (fun _ => some wrappedDoc) (fun _ => true) true
        (.response 200 "j") 9 sampleRow =
      ((getRegistryData (.obj [("details",
            .obj [("name", .str "Uptown"), ("userCount", .num 9)])])).bind fun d =>
        match mergeRow (fun _ => true) sampleRow d 9 with
        | .error _ => .ok (.failed "fetch-failed" "update failed", sampleRow)
        | .ok row2 => .ok (.succeeded, row2))
    ∧ refreshInstanceMetadata (fun _ => some userCountDoc) (fun _ => true) true
        (.response 200 "j") 9 sampleRow = .error () := by
  constructor
  · exact (c1_worker_always_unwraps_result (fun _ => some wrappedDoc) (fun _ => true) 9 200 "j"
      sampleRow
      [("result", .obj [("details", .obj [("name", .str "Uptown"), ("userCount", .num 9)])])]
      rfl rfl rfl).1
      (.obj [("details", .obj [("name", .str "Uptown"), ("userCount", .num 9)])]) rfl
  · exact (c1_worker_always_unwraps_result (fun _ => some userCountDoc) (fun _ => true) 9 200 "j"
      sampleRow [("details", .obj [("userCount", .num 42)])] rfl rfl rfl).2 rfl

/-- C7: when the normalized record leaves required fields nullish, the
registration responds 400 listing exactly the missing field names, joined
in the order name, link, websocketLink, region, imageUrl, userCount, and
no row is created (store unchanged). -/
theorem c7_missing_fields_listed (jsonParse : String → Option JsValue)
    (geoOk : JsValue → Bool) (linkValid : Bool) (outcome : FetchOutcome)
    (now newId : Nat) (body : JsValue) (s : Store) (data : RegistryData)
    (hd : getRegistryData (if body.isTruthy then body else .obj []) = .ok data)
    (hm : missingOf data ≠ []) :
    postRegistrations jsonParse geoOk linkValid outcome now newId body s =
      .ok (mkErr 400 ("Missing fields: " ++ String.intercalate ", " (missingOf data)), s)
    ∧ missingOf data =
        List.filter (fun k => (regField data k).isNullish) requiredMetaKeys
    ∧ ∀ k, k ∈ missingOf data ↔
        (k ∈ requiredMetaKeys ∧ (regField data k).isNullish = true) := by
  refine ⟨?_, rfl, ?_⟩
  · simp [postRegistrations, hd, hm]
  · intro k
    simp [missingOf, List.mem_filter]

theorem c7_missing_fields_listed_witness :
    postRegistrations (fun _ => none) (fun _ => true) true .timeout 0 1
        (.obj [("details", .obj [("name", .str "A")])]) [] =
      .ok (mkErr 400 "Missing fields: link, websocketLink, region, imageUrl, userCount",
           []) := by
  have h := (c7_missing_fields_listed (fun _ => none) (fun _ => true) true .timeout 0 1
      (.obj [("details", .obj [("name", .str "A")])]) []
      { name := .str "A", link := .undefined, websocketLink := .undefined, region := .null,
        imageUrl := .null, userCount := .null, rulesUrl := .undefined,
        descriptionUrl := .undefined, termsOfServiceUrl := .undefined,
        privacyPolicyUrl := .undefined, updatedAt := .null }
      rfl (by decide)).1
  rw [h]
  rfl

/-- C9: the response of `POST /registrations/refresh` for an existing
instance is 202 with the trigger message and does not depend on any part
of the Refresh Worker's environment — two runs differing only in the
worker's probe or merge outcome produce the same trigger response. -/
theorem c9_trigger_response_independent (p1 p2 : String → Option JsValue)
    (g1 g2 : JsValue → Bool) (lv1 lv2 : Bool) (o1 o2 : FetchOutcome)
    (n1 n2 : Nat) (row : Row) :
    (postRefreshTrigger p1 g1 lv1 o1 n1 (some row)).1 =
        (postRefreshTrigger p2 g2 lv2 o2 n2 (some row)).1
    ∧ (postRefreshTrigger p1 g1 lv1 o1 n1 (some row)).1 =
        { status := 202,
          body := .obj [("message", .str "Metadata refresh triggered")] } :=
  ⟨rfl, rfl⟩

theorem unreachableMsg_ne (st : Nat) (m : String)
    (hm : List.take 19 m.data ≠ ("Instance metadata u").data) :
    "Instance metadata unreachable (status " ++ toString st ++ ")" ≠ m := by
  intro h
  apply hm
  rw [← congrArg (fun x => List.take 19 x.data) h]
  have e : ("Instance metadata unreachable (status " ++ toString st ++ ")").data
      = ("Instance metadata unreachable (status ").data
          ++ ((toString st).data ++ (")").data) := by
    simp
  simp only [e]
  rw [List.take_append_of_le_length (by decide)]
  rfl

/-- C3 counterexample: a probe that fails with a non-timeout network
error (the fetch rejects without an abort) is classified as a seventh
outcome, "fetch failed", which is none of the classifications the claim
enumerates — in particular the claim's "success otherwise" clause fails
at this input, and the reason differs from the timeout reason. -/
theorem c3_netError_counterexample :
    fetchAndValidateInstanceMetadata (fun _ => none) true .netError =
      .error "Failed to verify instance metadata: fetch failed"
    ∧ "Failed to verify instance metadata: fetch failed" ≠
        "Failed to verify instance metadata: timeout"
    ∧ "Failed to verify instance metadata: fetch failed" ≠ "Invalid instance link" :=
  ⟨rfl, by decide, by decide⟩

/-- C3 (amended): the verifier classifies a probe into exactly one of:
invalid-link for a malformed link; timeout when the bounded probe expires;
fetch-failed for a non-timeout network failure; unreachable (carrying the
status code) for a non-2xx response; empty-response for a 2xx response
with blank body; invalid-json for a non-empty body that does not parse;
success with the parsed JSON otherwise. The reasons are pairwise
distinct, and a registration whose probe fails in any of these ways
responds 400 with that reason and creates no row. -/
theorem c3_verifier_classification (jsonParse : String → Option JsValue)
    (geoOk : JsValue → Bool) (linkValid : Bool) (outcome : FetchOutcome)
    (st : Nat) (body : String) (now newId : Nat) (reqBody : JsValue)
    (s : Store) (data : RegistryData) :
    fetchAndValidateInstanceMetadata jsonParse false outcome =
        .error "Invalid instance link"
    ∧ fetchAndValidateInstanceMetadata jsonParse true .timeout =
        .error "Failed to verify instance metadata: timeout"
    ∧ fetchAndValidateInstanceMetadata jsonParse true .netError =
        .error "Failed to verify instance metadata: fetch failed"
    ∧ (statusOk st = false →
        fetchAndValidateInstanceMetadata jsonParse true (.response st body) =
          .error ("Instance metadata unreachable (status " ++ toString st ++ ")"))
    ∧ (statusOk st = true → isBlank body = true →
        fetchAndValidateInstanceMetadata jsonParse true (.response st body) =
          .error "Instance metadata endpoint returned empty response")
    ∧ (statusOk st = true → isBlank body = false → jsonParse body = none →
        fetchAndValidateInstanceMetadata jsonParse true (.response st body) =
          .error "Instance metadata endpoint did not return valid JSON")
    ∧ (∀ j, statusOk st = true → isBlank body = false → jsonParse body = some j →
        fetchAndValidateInstanceMetadata jsonParse true (.response st body) = .data j)
    ∧ (∀ m, m ∈ ["Invalid instance link",
          "Failed to verify instance metadata: timeout",
          "Failed to verify instance metadata: fetch failed",
          "Instance metadata endpoint returned empty response",
          "Instance metadata endpoint did not return valid JSON"] →
        "Instance metadata unreachable (status " ++ toString st ++ ")" ≠ m)
    ∧ List.Pairwise (fun a b => a ≠ b)
        ["Invalid instance link",
         "Failed to verify instance metadata: timeout",
         "Failed to verify instance metadata: fetch failed",
         "Instance metadata endpoint returned empty response",
         "Instance metadata endpoint did not return valid JSON"]
    ∧ (∀ msg, getRegistryData (if reqBody.isTruthy then reqBody else .obj []) = .ok data →
        missingOf data = [] →
        fetchAndValidateInstanceMetadata jsonParse linkValid outcome = .error msg →
        postRegistrations jsonParse geoOk linkValid outcome now newId reqBody s =
          .ok (mkErr 400 msg, s)) := by
  refine ⟨rfl, rfl, rfl, ?_, ?_, ?_, ?_, ?_, by decide, ?_⟩
  · intro h
    simp [fetchAndValidateInstanceMetadata, h]
  · intro h1 h2
    simp [fetchAndValidateInstanceMetadata, h1, h2]
  · intro h1 h2 h3
    simp [fetchAndValidateInstanceMetadata, h1, h2, h3]
  · intro j h1 h2 h3
    simp [fetchAndValidateInstanceMetadata, h1, h2, h3]
  · intro m hmem
    fin_cases hmem <;> exact unreachableMsg_ne st _ (by decide)
  · intro msg hd hm hf
    simp [postRegistrations, hd, hm, hf]

theorem c3_verifier_classification_witness :
    fetchAndValidateInstanceMetadata (fun _ => some (.obj [])) true (.response 500 "x") =
      .error "Instance metadata unreachable (status 500)"
    ∧ fetchAndValidateInstanceMetadata (fun _ => some (.obj [])) true (.response 204 " ") =
        .error "Instance metadata endpoint returned empty response"
    ∧ fetchAndValidateInstanceMetadata (fun _ => none) true (.response 200 "x") =
        .error "Instance metadata endpoint did not return valid JSON"
    ∧ fetchAndValidateInstanceMetadata (fun _ => some (.obj [])) true (.response 200 "x") =
        .data (.obj [])
    ∧ postRegistrations (fun _ => none) (fun _ => true) true .timeout 0 1
        detailsPayload [] =
        .ok (mkErr 400 "Failed to verify instance metadata: timeout", []) := by
  have h1 := (c3_verifier_classification (fun _ => some (.obj [])) (fun _ => true) true
      .timeout 500 "x" 0 1 detailsPayload [] detailsData).2.2.2.1 (by decide)
  have h2 := (c3_verifier_classification (fun _ => some (.obj [])) (fun _ => true) true
      .timeout 204 " " 0 1 detailsPayload [] detailsData).2.2.2.2.1 (by decide) (by decide)
  have h3 := (c3_verifier_classification (fun _ => none) (fun _ => true) true
      .timeout 200 "x" 0 1 detailsPayload [] detailsData).2.2.2.2.2.1 (by decide) (by decide) rfl
  have h4 := (c3_verifier_classification (fun _ => some (.obj [])) (fun _ => true) true
      .timeout 200 "x" 0 1 detailsPayload [] detailsData).2.2.2.2.2.2.1 (.obj [])
      (by decide) (by decide) rfl
  have h5 := (c3_verifier_classification (fun _ => none) (fun _ => true) true
      .timeout 200 "x" 0 1 detailsPayload [] detailsData).2.2.2.2.2.2.2.2.2
      "Failed to verify instance metadata: timeout" rfl (by decide) rfl
  exact ⟨h1, h2, h3, h4, h5⟩

theorem any_link_false_of_countLink_zero {s : Store} {l : JsValue}
    (h : countLink s l = 0) : (List.any s fun x => beqVal x.link l) = false := by
  induction s with
  | nil => rfl
  | cons r t ih =>
    by_cases hr : beqVal r.link l = true
    · exfalso
      simp [countLink, List.filter_cons, hr] at h
    · have ht : countLink t l = 0 := by
        simpa [countLink, List.filter_cons, hr] using h
      simp [List.any_cons, hr, ih ht]

theorem countLink_append (s1 s2 : Store) (l : JsValue) :
    countLink (s1 ++ s2) l = countLink s1 l + countLink s2 l := by
  simp [countLink, List.filter_append]

/-- C4: registering a link present in the store fails with 409 Conflict
(the duplicate-key violation is mapped to a distinguishable conflict
response, not a generic 500), the failed insert mutates nothing, and
after a 201 followed by the duplicate attempt the row count for the link
is still 1. The unique constraint itself is modelled from the spec (the
schema script is not under src/). -/
theorem c4_duplicate_registration (jsonParse : String → Option JsValue)
    (geoOk : JsValue → Bool) (linkValid : Bool) (outcome : FetchOutcome)
    (now1 now2 id1 id2 : Nat) (body : JsValue) (s0 : Store)
    (data : RegistryData) (j : JsValue)
    (hd : getRegistryData (if body.isTruthy then body else .obj []) = .ok data)
    (hm : missingOf data = [])
    (hf : fetchAndValidateInstanceMetadata jsonParse linkValid outcome = .data j)
    (hg : geoOk data.region = true)
    (h0 : countLink s0 data.link = 0) :
    postRegistrations jsonParse geoOk linkValid outcome now1 id1 body s0 =
      .ok ({ status := 201,
             body := .obj
               [("message", .str "Instance registered and verified successfully."),
                ("instance", instanceJson (mkNewRow data now1 id1))] },
           s0 ++ [mkNewRow data now1 id1])
    ∧ countLink (s0 ++ [mkNewRow data now1 id1]) data.link = 1
    ∧ postRegistrations jsonParse geoOk linkValid outcome now2 id2 body
        (s0 ++ [mkNewRow data now1 id1]) =
      .ok (mkErr 409 "Instance with this link already exists",
           s0 ++ [mkNewRow data now1 id1]) := by
  have hany0 : (List.any s0 fun x => beqVal x.link data.link) = false :=
    any_link_false_of_countLink_zero h0
  have hni : ¬ ∃ x ∈ s0, beqVal x.link data.link = true := by
    simpa using hany0
  refine ⟨?_, ?_, ?_⟩
  · simp [postRegistrations, hd, hm, hf, hg, storeInsert, mkNewRow, hni]
  · rw [countLink_append, h0]
    simp [countLink, mkNewRow, beqVal_refl]
  · simp [postRegistrations, hd, hm, hf, hg, storeInsert, List.any_append,
      mkNewRow, beqVal_refl]

theorem c4_duplicate_registration_witness :
    postRegistrations (fun _ => some (.obj [])) (fun _ => true) true
        (.response 200 "x") 7 1 detailsPayload [] =
      .ok ({ status := 201,
             body := .obj
               [("message", .str "Instance registered and verified successfully."),
                ("instance", instanceJson (mkNewRow detailsData 7 1))] },
           [mkNewRow detailsData 7 1])
    ∧ countLink [mkNewRow detailsData 7 1] detailsData.link = 1
    ∧ postRegistrations (fun _ => some (.obj [])) (fun _ => true) true
        (.response 200 "x") 8 2 detailsPayload [mkNewRow detailsData 7 1] =
      .ok (mkErr 409 "Instance with this link already exists",
           [mkNewRow detailsData 7 1]) :=
  c4_duplicate_registration (fun _ => some (.obj [])) (fun _ => true) true
    (.response 200 "x") 7 8 1 2 detailsPayload [] detailsData (.obj [])
    rfl rfl rfl rfl rfl

/-- C8 counterexample: with only `lat` supplied — and unparseable — the
handler does not return 400: it silently substitutes the default
reference point and answers 200, because coordinates are only validated
when both `lat` and `lng` are present. -/
theorem c8_single_bad_coordinate_counterexample :
    jsParseFloat "abc" = none
    ∧ (getInstances (fun _ _ => 0) (some "abc") none []).status = 200
    ∧ getInstances (fun _ _ => 0) (some "abc") none [] =
        mkInstancesResp (fun _ _ => 0) defaultPoint [] :=
  ⟨rfl, rfl, rfl⟩

/-- C8 (amended): when both `lat` and `lng` are supplied, a coordinate
that fails to parse yields a 400 validation error; when only one of the
two is supplied (or neither), the supplied value — parseable or not — is
ignored and the default reference point is silently used. -/
theorem c8_coordinate_validation (dist : ℚ × ℚ → JsValue → ℚ) (s : Store)
    (latS lngS : String) :
    ((jsParseFloat latS = none ∨ jsParseFloat lngS = none) →
      getInstances dist (some latS) (some lngS) s =
        mkErr 400 "Invalid latitude or longitude")
    ∧ getInstances dist (some latS) none s = mkInstancesResp dist defaultPoint s
    ∧ getInstances dist none (some lngS) s = mkInstancesResp dist defaultPoint s
    ∧ getInstances dist none none s = mkInstancesResp dist defaultPoint s := by
  refine ⟨?_, rfl, rfl, rfl⟩
  rintro (h | h)
  · simp [getInstances, h]
  · cases hl : jsParseFloat latS <;> simp [getInstances, h, hl]

theorem c8_coordinate_validation_witness :
    getInstances (fun _ _ => 0) (some "abc") (some "1") [] =
      mkErr 400 "Invalid latitude or longitude"
    ∧ getInstances (fun _ _ => 0) (some "1") (some "abc") [] =
      mkErr 400 "Invalid latitude or longitude"
    ∧ getInstances (fun _ _ => 0) (some "abc") none [] =
      mkInstancesResp (fun _ _ => 0) defaultPoint [] :=
  ⟨(c8_coordinate_validation (fun _ _ => 0) [] "abc" "1").1 (Or.inl rfl),
   (c8_coordinate_validation (fun _ _ => 0) [] "1" "abc").1 (Or.inr rfl),
   (c8_coordinate_validation (fun _ _ => 0) [] "abc" "x").2.1⟩

/-- C6: with no `lat`/`lng` supplied, the discovery handler uses exactly
latitude 40.344, longitude −74.6514 as the reference point; the result
set contains exactly the instances with status verified, a null-region
instance gets no numeric distance, and the rows are ordered by the SQL
`distance_meters ASC NULLS LAST` comparison — non-decreasing distance
with every null-distance row after every numeric-distance row. -/
theorem c6_default_point_and_ordering (dist : ℚ × ℚ → JsValue → ℚ) (s : Store) :
    getInstances dist none none s = mkInstancesResp dist (40.344, -74.6514) s
    ∧ (∀ x ∈ instancesQuery dist (40.344, -74.6514) s, x.1.status = "verified")
    ∧ (∀ x ∈ instancesQuery dist (40.344, -74.6514) s,
        (x.1.region = none ↔ x.2 = none))
    ∧ List.Sorted rowLe (instancesQuery dist (40.344, -74.6514) s)
    ∧ List.Perm (instancesQuery dist (40.344, -74.6514) s)
        (annotate dist (40.344, -74.6514) (verifiedRows s)) := by
  refine ⟨rfl, ?_, ?_, ?_, ?_⟩
  · intro x hx
    rw [instancesQuery, List.mem_insertionSort] at hx
    simp only [annotate, List.mem_map] at hx
    rcases hx with ⟨r, hr, rfl⟩
    have hf := (List.mem_filter.mp hr).2
    simpa using hf
  · intro x hx
    rw [instancesQuery, List.mem_insertionSort] at hx
    simp only [annotate, List.mem_map] at hx
    rcases hx with ⟨r, hr, rfl⟩
    cases hreg : r.region <;> simp [hreg]
  · exact List.sorted_insertionSort rowLe _
  · exact List.perm_insertionSort rowLe _

theorem c6_default_point_and_ordering_witness :
    getInstances (fun _ _ => 0) none none [sampleRow] =
      mkInstancesResp (fun _ _ => 0) (40.344, -74.6514) [sampleRow]
    ∧ (sampleRow, (some 0 : Option ℚ)).1.status = "verified"
    ∧ ((sampleRow, (some 0 : Option ℚ)).1.region = none ↔
        (sampleRow, (some 0 : Option ℚ)).2 = none) := by
  have h := c6_default_point_and_ordering (fun _ _ => 0) [sampleRow]
  have e : instancesQuery (fun _ _ => 0) (40.344, -74.6514) [sampleRow] =
      [(sampleRow, (some 0 : Option ℚ))] := rfl
  have hm : (sampleRow, (some 0 : Option ℚ)) ∈
      instancesQuery (fun _ _ => 0) (40.344, -74.6514) [sampleRow] := by
    rw [e]
    exact List.mem_singleton.mpr rfl
  exact ⟨h.1, h.2.1 _ hm, h.2.2.1 _ hm⟩

theorem sqlCoalesce_jsCoalesce (a b : JsValue) :
    sqlCoalesce (jsCoalesce a b) b = if a.isNullish then b else a := by
  cases ha : a.isNullish <;> cases hb : b.isNullish <;>
    simp [sqlCoalesce, jsCoalesce, ha, hb]

@[simp]
theorem isNullish_null : JsValue.null.isNullish = true := rfl

@[simp]
theorem isNullish_undefined : JsValue.undefined.isNullish = true := rfl

@[simp]
theorem jsCoalesce_null (b : JsValue) : jsCoalesce JsValue.null b = b := rfl

@[simp]
theorem jsCoalesce_undefined (b : JsValue) : jsCoalesce JsValue.undefined b = b := rfl

theorem jsCoalesce_not_nullish {a : JsValue} (h : a.isNullish = false)
    (b : JsValue) : jsCoalesce a b = a := by
  simp [jsCoalesce, h]

theorem mergeRow_ok_eq {geoOk : JsValue → Bool} {row : Row} {d : RegistryData}
    {now : Nat} {row2 : Row}
    (hreg : ∀ w, row.region = some w → w.isNullish = false)
    (hmerge : mergeRow geoOk row d now = .ok row2) :
    row2 = { row with
      name := if d.name.isNullish then row.name else d.name
      websocketLink :=
        if d.websocketLink.isNullish then row.websocketLink else d.websocketLink
      region := if d.region.isNullish then row.region else some d.region
      imageUrl := if d.imageUrl.isNullish then row.imageUrl else d.imageUrl
      userCount := if d.userCount.isNullish then row.userCount else d.userCount
      updatedAt := if d.updatedAt.isNullish then row.updatedAt else d.updatedAt
      lastFetchedAt := now } := by
  simp only [mergeRow, regionValue_eq, sqlCoalesce_jsCoalesce] at hmerge
  simp only [sqlCoalesce] at hmerge
  cases hdr : d.region.isNullish with
  | true =>
    cases hrow : row.region with
    | none =>
      simp [hdr, hrow] at hmerge
      rw [← hmerge]
      simp [hdr, hrow]
    | some w =>
      have hw := hreg w hrow
      simp [hdr, hrow, hw] at hmerge
      cases hg : geoOk w with
      | false => simp [hg] at hmerge
      | true =>
        simp [hg] at hmerge
        rw [← hmerge]
        simp [hdr, hrow]
  | false =>
    simp only [hdr, Bool.false_eq_true, if_false] at hmerge
    simp only [jsCoalesce_not_nullish hdr] at hmerge
    simp [hdr] at hmerge
    cases hg : geoOk d.region with
    | false => simp [hg] at hmerge
    | true =>
      simp [hg] at hmerge
      rw [← hmerge]
      simp [hdr]

/-- C5 counterexample: a refresh whose probe succeeds but whose metadata
document lacks the "result" envelope runs no merge at all: the worker
throws, so contrary to the claim, a successful probe does not always
advance `lastFetchedAt` (no updated row is produced). -/
theorem c5_probe_success_without_merge_counterexample :
    fetchAndValidateInstanceMetadata (fun _ => some userCountDoc) true
        (.response 200 "j") = .data userCountDoc
    ∧ refreshInstanceMetadata (fun _ => some userCountDoc) (fun _ => true) true
        (.response 200 "j") 11 sampleRow = .error () :=
  ⟨rfl, rfl⟩

/-- C5 (amended): when the probe succeeds and the fetched document
carries, under "result", a value that normalizes (its "details" field is
non-nullish), and the merge transaction succeeds, the merge overwrites
exactly the non-null fields of the normalized detail, retains the stored
value for every null field, and advances `lastFetchedAt` to the current
tick while leaving id, link, status and createdAt untouched; a successful
probe on a document without that shape makes the worker throw with the
row unchanged; when the probe fails, the worker returns a failure with
the row entirely unchanged (so `lastFetchedAt` does not advance). -/
theorem c5_merge_semantics (jsonParse : String → Option JsValue)
    (geoOk : JsValue → Bool) (now st : Nat) (body : String) (row : Row)
    (doc v : JsValue) (d : RegistryData) (row2 : Row)
    (hreg : ∀ w, row.region = some w → w.isNullish = false)
    (hp : jsonParse body = some doc)
    (hst : statusOk st = true) (hb : isBlank body = false)
    (hres : jsMember doc "result" = .ok v)
    (hd : getRegistryData v = .ok d)
    (hmerge : mergeRow geoOk row d now = .ok row2) :
    refreshInstanceMetadata jsonParse geoOk true (.response st body) now row =
        .ok (.succeeded, row2)
    ∧ row2.lastFetchedAt = now
    ∧ row2.id = row.id ∧ row2.link = row.link ∧ row2.status = row.status
    ∧ row2.createdAt = row.createdAt
    ∧ (d.name.isNullish = false → row2.name = d.name)
    ∧ (d.name.isNullish = true → row2.name = row.name)
    ∧ (d.websocketLink.isNullish = false → row2.websocketLink = d.websocketLink)
    ∧ (d.websocketLink.isNullish = true → row2.websocketLink = row.websocketLink)
    ∧ (d.imageUrl.isNullish = false → row2.imageUrl = d.imageUrl)
    ∧ (d.imageUrl.isNullish = true → row2.imageUrl = row.imageUrl)
    ∧ (d.userCount.isNullish = false → row2.userCount = d.userCount)
    ∧ (d.userCount.isNullish = true → row2.userCount = row.userCount)
    ∧ (d.updatedAt.isNullish = false → row2.updatedAt = d.updatedAt)
    ∧ (d.updatedAt.isNullish = true → row2.updatedAt = row.updatedAt)
    ∧ (d.region.isNullish = false → row2.region = some d.region)
    ∧ (d.region.isNullish = true → row2.region = row.region)
    ∧ (getRegistryData v = .error () →
        refreshInstanceMetadata jsonParse geoOk true (.response st body) now row =
          .error ())
    ∧ (∀ outcome2 msg,
        fetchAndValidateInstanceMetadata jsonParse true outcome2 = .error msg →
        refreshInstanceMetadata jsonParse geoOk true outcome2 now row =
          .ok (.failed "fetch-failed" msg, row)) := by
  have heq := mergeRow_ok_eq hreg hmerge
  refine ⟨?_, ?_, ?_, ?_, ?_, ?_, ?_, ?_, ?_, ?_, ?_, ?_, ?_, ?_, ?_, ?_, ?_, ?_, ?_, ?_⟩
  · simp [refreshInstanceMetadata, fetchAndValidateInstanceMetadata, hp, hst, hb,
      hres, hd, hmerge]
  · rw [heq]
  · rw [heq]
  · rw [heq]
  · rw [heq]
  · rw [heq]
  · intro h
    rw [heq]
    simp [h]
  · intro h
    rw [heq]
    simp [h]
  · intro h
    rw [heq]
    simp [h]
  · intro h
    rw [heq]
    simp [h]
  · intro h
    rw [heq]
    simp [h]
  · intro h
    rw [heq]
    simp [h]
  · intro h
    rw [heq]
    simp [h]
  · intro h
    rw [heq]
    simp [h]
  · intro h
    rw [heq]
    simp [h]
  · intro h
    rw [heq]
    simp [h]
  · intro h
    rw [heq]
    simp [h]
  · intro h
    rw [heq]
    simp [h]
  · intro h
    simp [refreshInstanceMetadata, fetchAndValidateInstanceMetadata, hp, hst, hb,
      hres, h]
  · intro outcome2 msg hmsg
    simp [refreshInstanceMetadata, hmsg]

theorem c5_merge_semantics_witness :
    refreshInstanceMetadata (fun _ => some wrappedDoc) (fun _ => true) true
        (.response 200 "j") 9 sampleRow = .ok (.succeeded, sampleMergedRow)
    ∧ sampleMergedRow.lastFetchedAt = 9
    ∧ sampleMergedRow.name = .str "Uptown"
    ∧ sampleMergedRow.userCount = .num 9
    ∧ sampleMergedRow.websocketLink = sampleRow.websocketLink
    ∧ sampleMergedRow.region = sampleRow.region
    ∧ sampleMergedRow.status = sampleRow.status
    ∧ refreshInstanceMetadata (fun _ => some wrappedDoc) (fun _ => true) true
        .timeout 9 sampleRow =
      .ok (.failed "fetch-failed" "Failed to verify instance metadata: timeout",
           sampleRow) := by
  have h := c5_merge_semantics (fun _ => some wrappedDoc) (fun _ => true) 9 200 "j"
    sampleRow wrappedDoc
    (.obj [("details", .obj [("name", .str "Uptown"), ("userCount", .num 9)])])
    unwrappedDocData sampleMergedRow
    (by intro w hw
        simp [sampleRow, mkNewRow, detailsData] at hw
        rw [← hw]
        rfl)
    rfl rfl rfl rfl rfl rfl
  refine ⟨h.1, h.2.1, ?_, ?_, ?_, ?_, h.2.2.2.2.1, ?_⟩
  · exact (h.2.2.2.2.2.2.1 rfl).trans rfl
  · exact (h.2.2.2.2.2.2.2.2.2.2.2.2.1 rfl).trans rfl
  · exact h.2.2.2.2.2.2.2.2.2.1 rfl
  · exact h.2.2.2.2.2.2.2.2.2.2.2.2.2.2.2.2.2.1 rfl
  · exact h.2.2.2.2.2.2.2.2.2.2.2.2.2.2.2.2.2.2.2 .timeout
      "Failed to verify instance metadata: timeout" rfl

theorem postRegistrations_store_cases
    {jsonParse : String → Option JsValue} {geoOk : JsValue → Bool}
    {linkValid : Bool} {outcome : FetchOutcome} {now newId : Nat}
    {body : JsValue} {s : Store} {resp : Resp} {s2 : Store}
    (h : postRegistrations jsonParse geoOk linkValid outcome now newId body s =
      .ok (resp, s2)) :
    s2 = s ∨ ∃ d, s2 = s ++ [mkNewRow d now newId] := by
  cases hgd : getRegistryData (if body.isTruthy then body else .obj []) with
  | error e =>
    simp [postRegistrations, hgd] at h
  | ok data =>
    simp only [postRegistrations, hgd, ok_bind, pure_eq_ok] at h
    split at h
    · simp at h
      exact Or.inl h.2.symm
    · split at h
      · simp at h
        exact Or.inl h.2.symm
      · split at h
        · simp at h
          exact Or.inl h.2.symm
        · split at h
          · simp at h
            exact Or.inl h.2.symm
          · simp at h
            exact Or.inl h.2.symm
          · rename_i s3 heq
            simp only [storeInsert] at heq
            split at heq
            · exact absurd heq (by simp)
            · simp only [Except.ok.injEq] at heq
              simp only [Except.ok.injEq, Prod.mk.injEq] at h
              right
              exact ⟨data, by rw [← h.2, ← heq]⟩

theorem mergeRow_status {g : JsValue → Bool} {row : Row} {d : RegistryData}
    {now : Nat} {row2 : Row} (h : mergeRow g row d now = .ok row2) :
    row2.status = row.status := by
  simp only [mergeRow] at h
  repeat' split at h
  all_goals
    first
      | (simp only [Except.ok.injEq] at h
         rw [← h])
      | exact absurd h (by simp)

theorem refresh_preserves_status {jsonParse : String → Option JsValue}
    {g : JsValue → Bool} {lv : Bool} {o : FetchOutcome} {now : Nat} {row : Row}
    {out : RefreshOutcome} {row2 : Row}
    (h : refreshInstanceMetadata jsonParse g lv o now row = .ok (out, row2)) :
    row2.status = row.status := by
  simp only [refreshInstanceMetadata] at h
  split at h
  · simp only [pure_eq_ok, Except.ok.injEq, Prod.mk.injEq] at h
    rw [← h.2]
  · rename_i response hfr
    cases hm : jsMember response "result" with
    | error e =>
      rw [hm] at h
      exact absurd h (by simp)
    | ok v =>
      rw [hm] at h
      simp only [ok_bind] at h
      cases hgd : getRegistryData v with
      | error e =>
        rw [hgd] at h
        exact absurd h (by simp)
      | ok d =>
        rw [hgd] at h
        simp only [ok_bind] at h
        split at h
        · simp only [pure_eq_ok, Except.ok.injEq, Prod.mk.injEq] at h
          rw [← h.2]
        · rename_i row3 heq
          simp only [pure_eq_ok, Except.ok.injEq, Prod.mk.injEq] at h
          rw [← h.2]
          exact mergeRow_status heq

theorem refreshStoreOp_mem {jsonParse : String → Option JsValue}
    {g : JsValue → Bool} {lv : Bool} {o : FetchOutcome} {now : Nat}
    {lnk : JsValue} {s : Store} {r : Row}
    (hr : r ∈ refreshStoreOp jsonParse g lv o now lnk s) :
    ∃ r0 ∈ s, r.status = r0.status := by
  unfold refreshStoreOp at hr
  split at hr
  · exact ⟨r, hr, rfl⟩
  · rename_i row hfind
    split at hr
    · rename_i row2 heq
      rcases List.mem_map.mp hr with ⟨r1, hr1, rfl⟩
      by_cases hb : beqVal r1.link row.link = true
      · refine ⟨row, List.mem_of_find?_eq_some hfind, ?_⟩
        simp only [hb, if_true]
        exact refresh_preserves_status heq
      · refine ⟨r1, hr1, ?_⟩
        simp [hb]
    · exact ⟨r, hr, rfl⟩

/-- C10: every store state reachable through the server's operations
(registration insert, refresh merge, delete) contains only rows with
status 'verified' — insertion writes the literal 'verified', the refresh
UPDATE never touches the status column, deletion only removes rows — so
'pending' is unreachable and the verified-only filter of the discovery
query excludes no stored row. -/
theorem c10_all_rows_verified (s : Store) (h : Reachable s) :
    (∀ r ∈ s, r.status = "verified") ∧ verifiedRows s = s := by
  have main : ∀ r ∈ s, r.status = "verified" := by
    induction h with
    | empty => simp
    | register hprev heq ih =>
      intro r hr
      rcases postRegistrations_store_cases heq with rfl | ⟨d, rfl⟩
      · exact ih r hr
      · rcases List.mem_append.mp hr with hr' | hr'
        · exact ih r hr'
        · rcases List.mem_singleton.mp hr' with rfl
          rfl
    | refresh hprev ih =>
      intro r hr
      rcases refreshStoreOp_mem hr with ⟨r0, hr0, hst⟩
      rw [hst]
      exact ih r0 hr0
    | delete hprev ih =>
      intro r hr
      exact ih r (List.mem_filter.mp hr).1
  refine ⟨main, ?_⟩
  apply List.filter_eq_self.mpr
  intro r hr
  simp [main r hr]

theorem c10_all_rows_verified_witness :
    (∀ r ∈ [sampleRow], r.status = "verified")
    ∧ verifiedRows [sampleRow] = [sampleRow] :=
  c10_all_rows_verified [sampleRow]
    (@Reachable.register (fun _ => some (.obj [])) (fun _ => true) true
      (.response 200 "x") 7 1 detailsPayload [] sampleResp201 [sampleRow]
      Reachable.empty rfl)

end Registry
